import Mathlib

/-!
# LispCanvas: the module registry and the view-switching shell

A shallow embedding of `frontend/src/App.jsx` and
`frontend/src/modules/sunshed/sunshed.jsx`.

* React elements are values of `VNode`: an element carries its tag, its
  `key`, its plain attributes, its inline `style` object, its `onClick`
  handler (if the JSX gives one) and its children, in source order.
* A `useState` cell is a field of an explicit state record; the setter
  returned by `useState` replaces the field with the value it is given.
* A function component is a function from its state to the tree it returns.
-/

namespace LispCanvas

/-! ## Data model -/

/-- The ten module components imported at the top of `App.jsx`. A value of
this type is a reference to a component function; `Component.SunshedModule`
refers to the default export of `sunshed.jsx`, embedded below as the function
`SunshedModule`. The other nine source files are not part of this development. -/
inductive Component where
  | BridgeModule
  | RectangleColumnModule
  | RoadLsectionModule
  | RoadPlanModule
  | RoadCrossSectionModule
  | PmgsyRoadModule
  | LintelModule
  | SunshedModule
  | TbeamLbeamModule
  | StaircaseModule
  deriving DecidableEq, Repr

/-- One entry of the `modules` array: `{ id, name, component }`. -/
structure ModuleDescriptor where
  id : String
  name : String
  component : Component
  deriving DecidableEq, Repr

/-- The `modules` registry of `App.jsx`, in source order. -/
def modules : List ModuleDescriptor :=
  [ { id := "bridge", name := "Bridge Design", component := .BridgeModule },
    { id := "rectangle_column", name := "Rectangle Column", component := .RectangleColumnModule },
    { id := "road_lsection", name := "Road L-Section", component := .RoadLsectionModule },
    { id := "road_plan", name := "Road Plan", component := .RoadPlanModule },
    { id := "road_cross_section", name := "Road Cross Section", component := .RoadCrossSectionModule },
    { id := "pmgsy_road", name := "PMGSY Road", component := .PmgsyRoadModule },
    { id := "lintel", name := "Lintel", component := .LintelModule },
    { id := "sunshed", name := "Sunshed", component := .SunshedModule },
    { id := "tbeam_lbeam", name := "T-Beam/L-Beam", component := .TbeamLbeamModule },
    { id := "staircase", name := "Staircase", component := .StaircaseModule } ]

/-! ## Rendered trees -/

/-- The HTML tags used by the two source files. -/
inductive Tag where
  | div | nav | h1 | h2 | h3 | p | ul | li | button | main | canvas
  deriving DecidableEq, Repr

/-- A rendered React node. `α` is the type of click handlers of the tree. -/
inductive VNode (α : Type) where
  | text (s : String)
  | component (c : Component)
  | element (tag : Tag) (key : Option String) (attrs : List (String × String))
      (style : List (String × String)) (onClick : Option α) (children : List (VNode α))

namespace VNode

variable {α : Type}

/-- Children of an element; a text node or a component reference has none. -/
def childNodes : VNode α → List (VNode α)
  | element _ _ _ _ _ cs => cs
  | _ => []

/-- The `key` prop of an element. -/
def key? : VNode α → Option String
  | element _ k _ _ _ _ => k
  | _ => none

/-- The `onClick` prop of an element. -/
def onClick? : VNode α → Option α
  | element _ _ _ _ h _ => h
  | _ => none

/-- Look a name up in a list of `(name, value)` pairs. -/
def lookupProp (name : String) : List (String × String) → Option String
  | [] => none
  | (k, v) :: rest => if k = name then some v else lookupProp name rest

/-- A plain attribute of an element, such as `width`. -/
def attr? (name : String) : VNode α → Option String
  | element _ _ as _ _ _ => lookupProp name as
  | _ => none

/-- A property of the inline `style` object of an element. -/
def style? (name : String) : VNode α → Option String
  | element _ _ _ st _ _ => lookupProp name st
  | _ => none

mutual
/-- All elements with tag `t` in the tree, in document order. -/
def byTag (t : Tag) : VNode α → List (VNode α)
  | text _ => []
  | component _ => []
  | element tag k as st h cs =>
      (if tag = t then [element tag k as st h cs] else []) ++ byTagList t cs
/-- The elements with tag `t` in a list of sibling trees, in document order. -/
def byTagList (t : Tag) : List (VNode α) → List (VNode α)
  | [] => []
  | c :: cs => byTag t c ++ byTagList t cs
end

mutual
/-- The text content of a node: its text leaves concatenated in document order. -/
def textContent : VNode α → String
  | text s => s
  | component _ => ""
  | element _ _ _ _ _ cs => textContentList cs
/-- The text content of a list of sibling trees. -/
def textContentList : List (VNode α) → String
  | [] => ""
  | c :: cs => textContent c ++ textContentList cs
end

mutual
/-- All elements of the tree that carry an `onClick`, in document order. -/
def withOnClick : VNode α → List (VNode α)
  | text _ => []
  | component _ => []
  | element tag k as st h cs =>
      (if h.isSome then [element tag k as st h cs] else []) ++ withOnClickList cs
/-- The elements that carry an `onClick` in a list of sibling trees. -/
def withOnClickList : List (VNode α) → List (VNode α)
  | [] => []
  | c :: cs => withOnClick c ++ withOnClickList cs
end

end VNode

/-- Activating a control: run its click handler on the owner's state if it has
one; a control without a handler leaves the state as it is. -/
def fire {σ : Type} (handler : Option (σ → σ)) (s : σ) : σ :=
  match handler with
  | some h => h s
  | none => s

/-! ## The application shell (`App.jsx`) -/

/-- State of `App`: the one `useState` cell, `activeModule`. -/
structure AppState where
  activeModule : String
  deriving DecidableEq, Repr

/-- The state on fresh load: `useState('bridge')`. -/
def AppState.initial : AppState := { activeModule := "bridge" }

/-- The setter returned by `useState`: it stores the id it is given. The source
calls it as `setActiveModule(module.id)`; the spec calls it `selectModule`. -/
def setActiveModule (s : AppState) (id : String) : AppState :=
  { s with activeModule := id }

/-- The lookup `modules.find(m => m.id === activeModule)?.component`:
`find` gives the first descriptor whose id is the active id or `undefined`,
and `?.component` maps `undefined` to `undefined`. -/
def ActiveComponent (s : AppState) : Option Component :=
  (modules.find? (fun m => m.id == s.activeModule)).map (fun m => m.component)

/-- The `<button>` of one navigation entry, as written inside `modules.map`. -/
def navButton (s : AppState) (m : ModuleDescriptor) : VNode (AppState → AppState) :=
  .element .button none []
    [ ("width", "100%"),
      ("padding", "12px"),
      ("textAlign", "left"),
      ("background", if s.activeModule = m.id then "#007bff" else "white"),
      ("color", if s.activeModule = m.id then "white" else "#333"),
      ("border", "1px solid #ddd"),
      ("cursor", "pointer"),
      ("borderRadius", "4px"),
      ("fontSize", "14px"),
      ("transition", "all 0.2s") ]
    (some (fun st => setActiveModule st m.id))
    [ .text m.name ]

/-- The `<li key={module.id}>` of one navigation entry. -/
def navItem (s : AppState) (m : ModuleDescriptor) : VNode (AppState → AppState) :=
  .element .li (some m.id) [] [ ("marginBottom", "8px") ] none [ navButton s m ]

/-- The tree returned by `App`. -/
def App (s : AppState) : VNode (AppState → AppState) :=
  .element .div none []
    [ ("display", "flex"), ("height", "100vh"), ("fontFamily", "Arial, sans-serif") ] none
    [ .element .nav none []
        [ ("width", "250px"), ("borderRight", "1px solid #ccc"), ("padding", "20px"),
          ("background", "#f8f9fa") ] none
        [ .element .h1 none []
            [ ("fontSize", "24px"), ("marginBottom", "20px"), ("color", "#333") ] none
            [ .text "LispCanvas" ],
          .element .p none []
            [ ("fontSize", "12px"), ("color", "#666"), ("marginBottom", "20px") ] none
            [ .text "Civil Engineering Design" ],
          .element .ul none [] [ ("listStyle", "none"), ("padding", "0") ] none
            (modules.map (navItem s)) ],
      .element .main none []
        [ ("flex", "1"), ("padding", "20px"), ("overflow", "auto"), ("background", "white") ] none
        (match ActiveComponent s with
          | some c => [ .component c ]
          | none => []) ]

/-- The navigation entries of the rendered shell: the `<li>` elements inside
`<nav>`, in document order. -/
def navEntries (s : AppState) : List (VNode (AppState → AppState)) :=
  VNode.byTagList .li (VNode.byTag .nav (App s))

/-- The button inside a navigation entry. -/
def entryButton (e : VNode (AppState → AppState)) : Option (VNode (AppState → AppState)) :=
  (VNode.byTag .button e).head?

/-- The children of `<main>`: what the main panel shows. -/
def mainPanel (s : AppState) : List (VNode (AppState → AppState)) :=
  (VNode.byTag .main (App s)).flatMap VNode.childNodes

/-- An entry is drawn in the selected style when its button has
`background: '#007bff'` and `color: 'white'`. -/
def isSelected (e : VNode (AppState → AppState)) : Bool :=
  match entryButton e with
  | some b => b.style? "background" == some "#007bff" && b.style? "color" == some "white"
  | none => false

/-- An entry is drawn in the unselected style when its button has
`background: 'white'` and `color: '#333'`. -/
def isUnselected (e : VNode (AppState → AppState)) : Bool :=
  match entryButton e with
  | some b => b.style? "background" == some "white" && b.style? "color" == some "#333"
  | none => false

/-- The label of an entry: the text content of its button. -/
def entryLabel (e : VNode (AppState → AppState)) : String :=
  match entryButton e with
  | some b => b.textContent
  | none => ""

/-- A click on a navigation entry: the `onClick` of its button runs. -/
def clickEntry (e : VNode (AppState → AppState)) (st : AppState) : AppState :=
  match entryButton e with
  | some b => fire b.onClick? st
  | none => st

/-- A click on the `i`-th navigation entry of the shell as rendered in state `s`. -/
def click (s : AppState) (i : Fin modules.length) : AppState :=
  match (navEntries s)[i.val]? with
  | some e => clickEntry e s
  | none => s

/-- The state after a sequence of `setActiveModule` calls from fresh load. -/
def afterSelects (ids : List String) : AppState :=
  ids.foldl setActiveModule AppState.initial

/-- The state after a sequence of navigation clicks from fresh load. -/
def afterClicks (is : List (Fin modules.length)) : AppState :=
  is.foldl click AppState.initial

/-! ## The Sunshed module (`sunshed.jsx`) -/

/-- State of `SunshedModule`: the one `useState` cell, `params`, an object
seen as a list of `(name, value)` pairs. -/
structure SunshedState where
  params : List (String × String)
  deriving DecidableEq, Repr

/-- The state when the module mounts: `useState({})`. -/
def SunshedState.initial : SunshedState := { params := [] }

/-- The setter returned by `useState`. The source binds it and never calls it. -/
def setParams (s : SunshedState) (v : List (String × String)) : SunshedState :=
  { s with params := v }

/-- The tree returned by `SunshedModule`. No element of it has an `onClick`. -/
def SunshedModule (_s : SunshedState) : VNode (SunshedState → SunshedState) :=
  .element .div none [] [ ("padding", "20px") ] none
    [ .element .h2 none [] [] none [ .text "Sunshed Design Module" ],
      .element .p none [] [] none [ .text "Interactive canvas-based design tool for ." ],
      .element .div none [] [ ("marginTop", "20px"), ("display", "flex"), ("gap", "20px") ] none
        [ .element .div none [] [ ("flex", "1") ] none
            [ .element .h3 none [] [] none [ .text "Parameters" ],
              .element .div none []
                [ ("background", "#f5f5f5"), ("padding", "15px"), ("borderRadius", "4px") ] none
                [ .element .p none [] [] none [ .text "Parameter inputs will go here" ] ] ],
          .element .div none [] [ ("flex", "2") ] none
            [ .element .h3 none [] [] none [ .text "Drawing Canvas" ],
              .element .canvas none [ ("width", "800"), ("height", "600") ]
                [ ("border", "2px solid #ddd"), ("borderRadius", "4px"), ("background", "white") ]
                none [],
              .element .div none [] [ ("marginTop", "10px") ] none
                [ .element .button none [] [ ("marginRight", "10px"), ("padding", "8px 16px") ]
                    none [ .text "Generate DXF" ],
                  .element .button none [] [ ("marginRight", "10px"), ("padding", "8px 16px") ]
                    none [ .text "Export PDF" ],
                  .element .button none [] [ ("padding", "8px 16px") ]
                    none [ .text "Clear" ] ] ] ] ]

/-- The three user actions the module offers. -/
inductive SunshedAction where
  | generateDXF
  | exportPDF
  | clear
  deriving DecidableEq, Repr

/-- The label of the button that triggers an action. -/
def SunshedAction.label : SunshedAction → String
  | .generateDXF => "Generate DXF"
  | .exportPDF => "Export PDF"
  | .clear => "Clear"

/-- A user action on the module: the button with the action's label is
activated, which runs its `onClick` if it has one. -/
def act (s : SunshedState) (a : SunshedAction) : SunshedState :=
  match (VNode.byTag .button (SunshedModule s)).find? (fun b => b.textContent == a.label) with
  | some b => fire b.onClick? s
  | none => s

/-- The module state after a sequence of user actions from mount. -/
def afterActions (as : List SunshedAction) : SunshedState :=
  as.foldl act SunshedState.initial

/-- The states of the spec's per-module state machine. -/
inductive Phase where
  | Empty
  | ParametersEntered
  | Drawn
  deriving DecidableEq, Repr

/-- The phase of a module instance, read off its state: the component keeps
no drawing state and never draws on its canvas, so it is `Empty` exactly when
no parameter has been entered. -/
def phase (s : SunshedState) : Phase :=
  if s.params.isEmpty then .Empty else .ParametersEntered

/-- The page while `SunshedModule` is mounted: the shell's state and the state
of the module instance. -/
structure SunshedPage where
  shell : AppState
  sunshed : SunshedState
  deriving DecidableEq, Repr

/-- Activating the `i`-th button of the mounted Sunshed module. Its handler,
if any, is a closure of `SunshedModule`, which is rendered as
`<ActiveComponent />` without props, so it acts on the module's state. -/
def activateSunshedButton (pg : SunshedPage) (i : Nat) : SunshedPage :=
  match (VNode.byTag .button (SunshedModule pg.sunshed))[i]? with
  | some b => { pg with sunshed := fire b.onClick? pg.sunshed }
  | none => pg

/-! ## Helper lemmas -/

theorem byTag_element {α : Type} (t tag : Tag) (k : Option String)
    (as st : List (String × String)) (h : Option α) (cs : List (VNode α)) :
    VNode.byTag t (VNode.element tag k as st h cs) =
      (if tag = t then [VNode.element tag k as st h cs] else []) ++ VNode.byTagList t cs := by
  rw [VNode.byTag]

theorem byTag_text {α : Type} (t : Tag) (x : String) :
    VNode.byTag t (VNode.text x : VNode α) = [] := by
  rw [VNode.byTag]

theorem byTag_component {α : Type} (t : Tag) (c : Component) :
    VNode.byTag t (VNode.component c : VNode α) = [] := by
  rw [VNode.byTag]

theorem byTagList_nil {α : Type} (t : Tag) :
    VNode.byTagList t ([] : List (VNode α)) = [] := by
  rw [VNode.byTagList]

theorem byTagList_cons {α : Type} (t : Tag) (c : VNode α) (cs : List (VNode α)) :
    VNode.byTagList t (c :: cs) = VNode.byTag t c ++ VNode.byTagList t cs := by
  rw [VNode.byTagList]

theorem byTag_navItem (s : AppState) (m : ModuleDescriptor) (t : Tag) :
    VNode.byTag t (navItem s m) =
      (if Tag.li = t then [navItem s m] else []) ++
        (if Tag.button = t then [navButton s m] else []) := by
  simp [navItem, navButton, byTag_element, byTag_text, byTagList_cons, byTagList_nil]

theorem byTagList_navItems_of_ne (s : AppState) (t : Tag) (hli : Tag.li ≠ t)
    (hb : Tag.button ≠ t) (l : List ModuleDescriptor) :
    VNode.byTagList t (l.map (navItem s)) = [] := by
  induction l with
  | nil => rfl
  | cons m l ih => simp [byTagList_cons, byTag_navItem, hli, hb, ih]

theorem byTagList_li_navItems (s : AppState) (l : List ModuleDescriptor) :
    VNode.byTagList .li (l.map (navItem s)) = l.map (navItem s) := by
  induction l with
  | nil => rfl
  | cons m l ih => simp [byTagList_cons, byTag_navItem, ih]

theorem navEntries_eq (s : AppState) : navEntries s = modules.map (navItem s) := by
  have h := byTagList_navItems_of_ne s .nav (by decide) (by decide) modules
  cases hc : ActiveComponent s <;>
    simp [navEntries, App, byTag_element, byTag_text, byTag_component, byTagList_cons, byTagList_nil, hc, h,
      byTagList_li_navItems]

theorem mainPanel_eq (s : AppState) :
    mainPanel s = match ActiveComponent s with
      | some c => [ VNode.component c ]
      | none => [] := by
  have h := byTagList_navItems_of_ne s .main (by decide) (by decide) modules
  cases hc : ActiveComponent s <;>
    simp [mainPanel, App, byTag_element, byTag_text, byTag_component, byTagList_cons, byTagList_nil, hc, h,
      VNode.childNodes]

theorem entryButton_navItem (s : AppState) (m : ModuleDescriptor) :
    entryButton (navItem s m) = some (navButton s m) := by
  simp [entryButton, byTag_navItem]

theorem clickEntry_navItem (s : AppState) (m : ModuleDescriptor) (st : AppState) :
    clickEntry (navItem s m) st = setActiveModule st m.id := by
  simp [clickEntry, entryButton_navItem, navButton, VNode.onClick?, fire]

theorem entryLabel_navItem (s : AppState) (m : ModuleDescriptor) :
    entryLabel (navItem s m) = m.name := by
  simp [entryLabel, entryButton_navItem, navButton, VNode.textContent, VNode.textContentList]

theorem isSelected_navItem (s : AppState) (m : ModuleDescriptor) :
    isSelected (navItem s m) = decide (s.activeModule = m.id) := by
  by_cases h : s.activeModule = m.id <;>
    simp [isSelected, entryButton_navItem, navButton, VNode.style?, VNode.lookupProp, h]

theorem isUnselected_navItem (s : AppState) (m : ModuleDescriptor) :
    isUnselected (navItem s m) = !decide (s.activeModule = m.id) := by
  by_cases h : s.activeModule = m.id <;>
    simp [isUnselected, entryButton_navItem, navButton, VNode.style?, VNode.lookupProp, h]

theorem click_eq (s : AppState) (i : Fin modules.length) :
    click s i = setActiveModule s (modules[i.val]).id := by
  simp [click, navEntries_eq, clickEntry_navItem]

theorem modules_ids_nodup : (modules.map (fun m => m.id)).Nodup := by decide

theorem afterClicks_active (is : List (Fin modules.length)) :
    (afterClicks is).activeModule =
      match is.getLast? with
      | some i => (modules[i.val]).id
      | none => "bridge" := by
  induction is using List.reverseRecOn with
  | nil => rfl
  | append_singleton l a _ =>
    simp [afterClicks, List.foldl_append, click_eq, setActiveModule]

theorem selected_count_of_registered (a : String) (h : ∃ d ∈ modules, d.id = a) :
    (modules.filter (fun m => decide (a = m.id))).length = 1 := by
  obtain ⟨d, hd, rfl⟩ := h
  revert d
  decide

theorem select_lookup_aux (s : AppState) (d : ModuleDescriptor) (hd : d ∈ modules)
    (h : s.activeModule = d.id) : ActiveComponent s = some d.component := by
  obtain ⟨a⟩ := s
  simp only at h
  subst h
  revert d
  decide

theorem mainPanel_of_registered (s : AppState) (d : ModuleDescriptor) (hd : d ∈ modules)
    (h : s.activeModule = d.id) : mainPanel s = [VNode.component d.component] := by
  rw [mainPanel_eq]
  have := (select_lookup_aux s d hd h)
  rw [this]

theorem withOnClick_element {α : Type} (tag : Tag) (k : Option String)
    (as st : List (String × String)) (h : Option α) (cs : List (VNode α)) :
    VNode.withOnClick (VNode.element tag k as st h cs) =
      (if h.isSome then [VNode.element tag k as st h cs] else []) ++
        VNode.withOnClickList cs := by
  rw [VNode.withOnClick]

theorem withOnClick_text {α : Type} (x : String) :
    VNode.withOnClick (VNode.text x : VNode α) = [] := by
  rw [VNode.withOnClick]

theorem withOnClick_component {α : Type} (c : Component) :
    VNode.withOnClick (VNode.component c : VNode α) = [] := by
  rw [VNode.withOnClick]

theorem withOnClickList_nil {α : Type} :
    VNode.withOnClickList ([] : List (VNode α)) = [] := by
  rw [VNode.withOnClickList]

theorem withOnClickList_cons {α : Type} (c : VNode α) (cs : List (VNode α)) :
    VNode.withOnClickList (c :: cs) = VNode.withOnClick c ++ VNode.withOnClickList cs := by
  rw [VNode.withOnClickList]

theorem withOnClick_navItem (s : AppState) (m : ModuleDescriptor) :
    VNode.withOnClick (navItem s m) = [navButton s m] := by
  simp [navItem, navButton, withOnClick_element, withOnClick_text, withOnClickList_cons,
    withOnClickList_nil]

theorem withOnClickList_navItems (s : AppState) (l : List ModuleDescriptor) :
    VNode.withOnClickList (l.map (navItem s)) = l.map (navButton s) := by
  induction l with
  | nil => rfl
  | cons m l ih => simp [withOnClickList_cons, withOnClick_navItem, ih]

theorem withOnClick_App (s : AppState) :
    VNode.withOnClick (App s) = modules.map (navButton s) := by
  have h := withOnClickList_navItems s modules
  cases hc : ActiveComponent s <;>
    simp [App, withOnClick_element, withOnClick_text, withOnClick_component,
      withOnClickList_cons, withOnClickList_nil, hc, h]

theorem act_eq (s : SunshedState) (a : SunshedAction) : act s a = s := by
  cases a <;> rfl

theorem foldl_act_eq (as : List SunshedAction) (s : SunshedState) : as.foldl act s = s := by
  induction as generalizing s with
  | nil => rfl
  | cons a rest ih => simp only [List.foldl_cons, act_eq, ih]


/-! ## Claims -/

/-- C1: for every string `id`, after `setActiveModule id` (the spec's
`selectModule`) the lookup `modules.find(m => m.id === activeModule)?.component`
gives the component of any descriptor whose id is `id`, and gives nothing when
no descriptor has that id. -/
theorem select_then_lookup (s : AppState) (id : String) :
    (∀ d ∈ modules, d.id = id →
        ActiveComponent (setActiveModule s id) = some d.component) ∧
    ((∀ d ∈ modules, d.id ≠ id) → ActiveComponent (setActiveModule s id) = none) := by
  constructor
  · intro d hd hid
    subst hid
    simp only [modules, List.mem_cons, List.mem_singleton, List.not_mem_nil, or_false] at hd
    rcases hd with h | h | h | h | h | h | h | h | h | h <;> subst h <;> rfl
  · intro h
    simp only [ActiveComponent, setActiveModule, Option.map_eq_none', List.find?_eq_none]
    intro d hd
    simpa using h d hd

/-- C1, at the registered id "sunshed" and at the unregistered id
"nonexistent_id", from fresh load. -/
theorem select_then_lookup_witness :
    ActiveComponent (setActiveModule AppState.initial "sunshed") = some Component.SunshedModule ∧
    ActiveComponent (setActiveModule AppState.initial "nonexistent_id") = none :=
  ⟨(select_then_lookup AppState.initial "sunshed").1
      { id := "sunshed", name := "Sunshed", component := .SunshedModule } (by decide) rfl,
   (select_then_lookup AppState.initial "nonexistent_id").2 (by decide)⟩

/-- C2 as stated fails: from fresh load, `setActiveModule "nonexistent_id"`
is given an id of no descriptor and still changes the active selection. -/
theorem select_unregistered_not_noop :
    ¬ (∀ (s : AppState) (id : String),
        ((∃ d ∈ modules, d.id = id) → (setActiveModule s id).activeModule = id) ∧
        ((∀ d ∈ modules, d.id ≠ id) →
          (setActiveModule s id).activeModule = s.activeModule)) := by
  intro h
  have h2 := (h AppState.initial "nonexistent_id").2 (by decide)
  exact absurd h2 (by decide)

/-- C2, amended: `setActiveModule id` stores `id` as the active selection for
every string `id`, matching a descriptor or not. The shell calls it only from
navigation clicks: the elements of the tree `App` returns that carry an
`onClick` are exactly the ten navigation buttons, one per descriptor in
registry order, the handler of each calls `setActiveModule` with its
descriptor's id, and so does a click on the `i`-th entry. -/
theorem select_sets_active (s : AppState) (id : String) :
    (setActiveModule s id).activeModule = id ∧
    VNode.withOnClick (App s) = modules.map (navButton s) ∧
    List.Forall₂
      (fun b m => ∀ st : AppState, fire b.onClick? st = setActiveModule st m.id)
      (VNode.withOnClick (App s)) modules ∧
    ∀ i : Fin modules.length, click s i = setActiveModule s (modules[i.val]).id := by
  refine ⟨rfl, withOnClick_App s, ?_, click_eq s⟩
  rw [withOnClick_App, List.forall₂_map_left_iff]
  apply List.forall₂_same.2
  intro m _ st
  rfl

/-- C3 as stated fails: after the single call `setActiveModule "nonexistent_id"`
from fresh load no navigation entry is drawn in the selected style. -/
theorem selected_entry_not_always_one :
    ¬ (∀ ids : List String,
        ((navEntries (afterSelects ids)).filter isSelected).length = 1 ∧
        ∀ e ∈ navEntries (afterSelects ids),
          (isSelected e = true ↔ e.key? = some (afterSelects ids).activeModule) ∧
          (isSelected e = false → isUnselected e = true)) := by
  intro h
  exact absurd (h ["nonexistent_id"]).1 (by decide)

/-- C3, amended: after any finite sequence of `setActiveModule` calls from
fresh load, the entries drawn in the selected style are exactly those whose
module id is the active selection, and every other entry is drawn in the
unselected style; when the active selection is a registered id exactly one
entry is selected, and when it is no registered id none is. -/
theorem selected_entry_matches_active (ids : List String) :
    (∀ e ∈ navEntries (afterSelects ids),
      (isSelected e = true ↔ e.key? = some (afterSelects ids).activeModule) ∧
      (isSelected e = false → isUnselected e = true)) ∧
    ((∃ d ∈ modules, d.id = (afterSelects ids).activeModule) →
      ((navEntries (afterSelects ids)).filter isSelected).length = 1) ∧
    ((∀ d ∈ modules, d.id ≠ (afterSelects ids).activeModule) →
      (navEntries (afterSelects ids)).filter isSelected = []) := by
  refine ⟨?_, ?_, ?_⟩
  · intro e he
    rw [navEntries_eq, List.mem_map] at he
    obtain ⟨m, _, rfl⟩ := he
    rw [isSelected_navItem, isUnselected_navItem]
    constructor
    · simp only [decide_eq_true_eq, navItem, VNode.key?, Option.some.injEq]
      exact eq_comm
    · intro h
      rw [h]
      rfl
  · intro hreg
    have hcount := selected_count_of_registered _ hreg
    rw [navEntries_eq, List.filter_map, List.length_map]
    have hfun : (isSelected ∘ navItem (afterSelects ids)) =
        fun m => decide ((afterSelects ids).activeModule = m.id) := by
      funext m
      exact isSelected_navItem _ m
    rw [hfun]
    exact hcount
  · intro h
    rw [navEntries_eq, List.filter_map]
    have hfun : (isSelected ∘ navItem (afterSelects ids)) =
        fun m => decide ((afterSelects ids).activeModule = m.id) := by
      funext m
      exact isSelected_navItem _ m
    rw [hfun, List.map_eq_nil_iff, List.filter_eq_nil_iff]
    intro m hm
    simpa using fun heq => h m hm heq.symm

/-- C3 amended, after the calls "nonexistent_id", "sunshed" (the selection is
registered again) and after the single call "nonexistent_id". -/
theorem selected_entry_matches_active_witness :
    ((navEntries (afterSelects ["nonexistent_id", "sunshed"])).filter isSelected).length = 1 ∧
    (navEntries (afterSelects ["nonexistent_id"])).filter isSelected = [] :=
  ⟨(selected_entry_matches_active ["nonexistent_id", "sunshed"]).2.1 (by decide),
   (selected_entry_matches_active ["nonexistent_id"]).2.2 (by decide)⟩

/-- C4: in every state reached from fresh load by navigation clicks exactly
one descriptor has the active id, and the main panel holds exactly one
component reference, that descriptor's: the component of the entry clicked
last, or `BridgeModule` when nothing was clicked. In any state whose active
id matches no descriptor the main panel holds nothing. -/
theorem one_active_component (is : List (Fin modules.length)) :
    (modules.filter (fun m => m.id == (afterClicks is).activeModule)).length = 1 ∧
    mainPanel (afterClicks is) =
      (modules.filter (fun m => m.id == (afterClicks is).activeModule)).map
        (fun m => VNode.component m.component) ∧
    mainPanel (afterClicks is) =
      [VNode.component
        (match is.getLast? with
          | some i => (modules[i.val]).component
          | none => Component.BridgeModule)] ∧
    ∀ s : AppState, (∀ d ∈ modules, d.id ≠ s.activeModule) → mainPanel s = [] := by
  have hact := afterClicks_active is
  have hone : (modules.filter (fun m => m.id == (afterClicks is).activeModule)).length = 1 := by
    rw [hact]
    cases is.getLast? with
    | none => decide
    | some i => revert i; decide
  refine ⟨hone, ?_, ?_, ?_⟩
  · rw [mainPanel_eq, ActiveComponent, ← List.filter_head?]
    obtain ⟨d, hd⟩ := List.length_eq_one.1 hone
    rw [hd]
    rfl
  · cases hl : is.getLast? with
    | none =>
      rw [hl] at hact
      exact mainPanel_of_registered _ ⟨"bridge", "Bridge Design", .BridgeModule⟩ (by decide) hact
    | some i =>
      rw [hl] at hact
      exact mainPanel_of_registered _ (modules[i.val]) (List.getElem_mem _) hact
  · intro s h
    rw [mainPanel_eq]
    have : ActiveComponent s = none := by
      simp only [ActiveComponent, Option.map_eq_none', List.find?_eq_none]
      intro d hd
      simpa using h d hd
    rw [this]

/-- C4, at the click sequence (lintel, sunshed) and at the unregistered
selection "nonexistent_id". -/
theorem one_active_component_witness :
    mainPanel (afterClicks [⟨6, by decide⟩, ⟨7, by decide⟩]) =
      [VNode.component Component.SunshedModule] ∧
    mainPanel { activeModule := "nonexistent_id" } = [] :=
  ⟨(one_active_component [⟨6, by decide⟩, ⟨7, by decide⟩]).2.2.1,
   (one_active_component []).2.2.2 { activeModule := "nonexistent_id" } (by decide)⟩

/-- C5: on fresh load the active selection is "bridge", the lookup gives
`BridgeModule`, the main panel shows `BridgeModule`, and the one highlighted
navigation entry is the first, labelled 'Bridge Design'. -/
theorem fresh_load :
    AppState.initial.activeModule = "bridge" ∧
    ActiveComponent AppState.initial = some Component.BridgeModule ∧
    mainPanel AppState.initial = [VNode.component Component.BridgeModule] ∧
    (navEntries AppState.initial).map isSelected =
      [true, false, false, false, false, false, false, false, false, false] ∧
    (navEntries AppState.initial).head?.map entryLabel = some "Bridge Design" := by
  refine ⟨rfl, by decide, ?_, by decide, by decide⟩
  rw [mainPanel_eq]
  rfl

/-- C6: for every active selection the navigation list has one entry per
descriptor, in registry order: the entry keys are the ten ids in the listed
order, and the `i`-th entry carries the `i`-th descriptor's key and display
name and, when clicked, calls `setActiveModule` with that descriptor's id. -/
theorem nav_entries_follow_registry (s : AppState) :
    (navEntries s).length = 10 ∧
    (navEntries s).map VNode.key? =
      [some "bridge", some "rectangle_column", some "road_lsection", some "road_plan",
       some "road_cross_section", some "pmgsy_road", some "lintel", some "sunshed",
       some "tbeam_lbeam", some "staircase"] ∧
    List.Forall₂
      (fun e m => e.key? = some m.id ∧ entryLabel e = m.name ∧
        ∀ st : AppState, clickEntry e st = setActiveModule st m.id)
      (navEntries s) modules := by
  rw [navEntries_eq]
  refine ⟨by simp [modules], ?_, ?_⟩
  · simp [modules, navItem, VNode.key?]
  · rw [List.forall₂_map_left_iff]
    apply List.forall₂_same.2
    intro m _
    exact ⟨rfl, entryLabel_navItem s m, clickEntry_navItem s m⟩

/-- C7: when the active selection matches no descriptor, `App` still returns
its tree (it is a total function: the optional chain gives `undefined`, not an
exception), its one `<main>` has no child, and the navigation entries are the
same ten, in the same order, with the same keys, labels and click handlers as
in any other state; a click on any entry then makes the main panel show that
entry's component. -/
theorem unknown_selection_degrades (s : AppState)
    (h : ∀ d ∈ modules, d.id ≠ s.activeModule) :
    ActiveComponent s = none ∧
    (VNode.byTag .main (App s)).map VNode.childNodes = [[]] ∧
    mainPanel s = [] ∧
    (navEntries s).length = 10 ∧
    (∀ s2 : AppState,
      (navEntries s).map VNode.key? = (navEntries s2).map VNode.key? ∧
      (navEntries s).map entryLabel = (navEntries s2).map entryLabel ∧
      ∀ st : AppState,
        (navEntries s).map (fun e => clickEntry e st) =
          (navEntries s2).map (fun e => clickEntry e st)) ∧
    ∀ i : Fin modules.length,
      mainPanel (click s i) = [VNode.component (modules[i.val]).component] := by
  have hnone : ActiveComponent s = none := by
    simp only [ActiveComponent, Option.map_eq_none', List.find?_eq_none]
    intro d hd
    simpa using h d hd
  have hmain := byTagList_navItems_of_ne s .main (by decide) (by decide) modules
  refine ⟨hnone, ?_, ?_, ?_, ?_, ?_⟩
  · simp [App, byTag_element, byTag_text, byTagList_cons, byTagList_nil, hnone, hmain,
      VNode.childNodes]
  · rw [mainPanel_eq, hnone]
  · rw [navEntries_eq]
    simp [modules]
  · intro s2
    simp only [navEntries_eq, List.map_map]
    refine ⟨?_, ?_, ?_⟩
    · rfl
    · apply List.map_congr_left
      intro m _
      simp only [Function.comp_apply, entryLabel_navItem]
    · intro st
      apply List.map_congr_left
      intro m _
      simp only [Function.comp_apply, clickEntry_navItem]
  · intro i
    exact mainPanel_of_registered _ (modules[i.val]) (List.getElem_mem _) (by rw [click_eq]; rfl)

/-- C7, at the active selection "nonexistent_id": the panel is empty, and a
click on the eighth entry then shows `SunshedModule`. -/
theorem unknown_selection_degrades_witness :
    mainPanel { activeModule := "nonexistent_id" } = [] ∧
    mainPanel (click { activeModule := "nonexistent_id" } ⟨7, by decide⟩) =
      [VNode.component Component.SunshedModule] :=
  ⟨(unknown_selection_degrades { activeModule := "nonexistent_id" } (by decide)).2.2.1,
   (unknown_selection_degrades { activeModule := "nonexistent_id" } (by decide)).2.2.2.2.2
      ⟨7, by decide⟩⟩

/-- C8: the registry ids are pairwise distinct; so the first-match lookup of a
registered descriptor's id gives that descriptor, no other descriptor carries
its id, and clicks on distinct navigation entries select distinct descriptors. -/
theorem registry_ids_unique :
    (modules.map (fun m => m.id)).Nodup ∧
    (∀ d ∈ modules,
      modules.find? (fun m => m.id == d.id) = some d ∧
      ∀ d2 ∈ modules, d2.id = d.id → d2 = d) ∧
    (∀ (s : AppState) (i j : Fin modules.length), i ≠ j →
      modules.find? (fun m => m.id == (click s i).activeModule) ≠
        modules.find? (fun m => m.id == (click s j).activeModule)) := by
  refine ⟨modules_ids_nodup, by decide, ?_⟩
  intro s i j
  rw [click_eq, click_eq]
  revert i j
  simp only [setActiveModule]
  decide

/-- C8, at the descriptor of "lintel" and at the first two navigation entries. -/
theorem registry_ids_unique_witness :
    modules.find? (fun m => m.id == "lintel") =
      some { id := "lintel", name := "Lintel", component := Component.LintelModule } ∧
    modules.find? (fun m => m.id == (click AppState.initial ⟨0, by decide⟩).activeModule) ≠
      modules.find? (fun m => m.id == (click AppState.initial ⟨1, by decide⟩).activeModule) :=
  ⟨(registry_ids_unique.2.1
      { id := "lintel", name := "Lintel", component := Component.LintelModule } (by decide)).1,
   registry_ids_unique.2.2 AppState.initial ⟨0, by decide⟩ ⟨1, by decide⟩ (by decide)⟩

/-- C9: after `setActiveModule "sunshed"` the main panel holds `SunshedModule`;
the tree `SunshedModule` returns has exactly one `<canvas>`, of width 800 and
height 600, and exactly three buttons, labelled 'Generate DXF', 'Export PDF',
'Clear' in this order, none with an `onClick`; activating any of them leaves
the module's `params` and the shell's active selection as they were. -/
theorem sunshed_panel (s : AppState) (p : SunshedState) :
    mainPanel (setActiveModule s "sunshed") = [VNode.component Component.SunshedModule] ∧
    (VNode.byTag .canvas (SunshedModule p)).map
        (fun c => (c.attr? "width", c.attr? "height")) = [(some "800", some "600")] ∧
    (VNode.byTag .button (SunshedModule p)).map VNode.textContent =
      ["Generate DXF", "Export PDF", "Clear"] ∧
    (VNode.byTag .button (SunshedModule p)).map (fun b => b.onClick?.isSome) =
      [false, false, false] ∧
    (∀ b ∈ VNode.byTag .button (SunshedModule p), fire b.onClick? p = p) ∧
    ∀ (pg : SunshedPage) (i : Nat), activateSunshedButton pg i = pg := by
  refine ⟨?_, rfl, ?_, rfl, ?_, ?_⟩
  · exact mainPanel_of_registered _ ⟨"sunshed", "Sunshed", .SunshedModule⟩ (by decide) rfl
  · show List.map VNode.textContent (VNode.byTag Tag.button (SunshedModule ⟨[]⟩)) = _
    decide
  · intro b hb
    have : b.onClick? = none := by
      simp only [SunshedModule, byTag_element, byTag_text, byTagList_cons, byTagList_nil] at hb
      simp at hb
      rcases hb with rfl | rfl | rfl <;> rfl
    rw [this]
    rfl
  · intro pg i
    match i with
    | 0 => rfl
    | 1 => rfl
    | 2 => rfl
    | n + 3 => rfl

/-- C9, at the 'Clear' button of a freshly mounted Sunshed module. -/
theorem sunshed_panel_witness :
    fire (VNode.element Tag.button none [] [("padding", "8px 16px")] none
      [VNode.text "Clear"]).onClick? SunshedState.initial = SunshedState.initial :=
  (sunshed_panel AppState.initial SunshedState.initial).2.2.2.2.1 _ (by
    simp [SunshedModule, byTag_element, byTag_text, byTagList_cons, byTagList_nil])

/-- C10: the Sunshed module's `params` is the empty object when it mounts and
after every finite sequence of the user actions 'Generate DXF', 'Export PDF'
and 'Clear'; so after Clear `params` is empty and the module is in the Empty
state. -/
theorem sunshed_params_stay_empty (acts : List SunshedAction) :
    SunshedState.initial.params = [] ∧
    (afterActions acts).params = [] ∧
    phase (afterActions acts) = Phase.Empty ∧
    (act (afterActions acts) SunshedAction.clear).params = [] ∧
    phase (act (afterActions acts) SunshedAction.clear) = Phase.Empty := by
  have h : afterActions acts = SunshedState.initial := foldl_act_eq acts _
  rw [act_eq, h]
  exact ⟨rfl, rfl, rfl, rfl, rfl⟩

end LispCanvas
